import Mathlib

/-!
Shallow embedding of the userdata layer of `hv-lua` (`src/userdata.rs` and
`src/hv/sync.rs`): the runtime-borrow-checked `UserDataCell` (a `RefCell`
around a type-erased pointer), the `AnyUserData` handle operations, the
`MetaMethod` validation, the user-value slots, and the
`UserDataMethodsProxy` / `UserDataFieldsProxy` forwarding layer.
-/

namespace HvLua

/-- The error kinds of `crate::error::Error` relevant to the userdata layer. -/
inductive Error where
  | userDataBorrowError
  | userDataBorrowMutError
  | userDataTypeMismatch
  | userDataDynMismatch
  | userDataDestructed
  | userDataProxyBorrowError
  | userDataProxyBorrowMutError
  | metaMethodRestricted (name : String)
  | runtimeError (msg : String)
deriving DecidableEq

deriving instance DecidableEq for Except

/-- `str::starts_with` on string literals, as a check on the underlying
character sequence. -/
def strStarts (s pat : String) : Bool :=
  pat.data.isPrefixOf s.data

/-!
## The `RefCell` borrow flag

`UserDataCell` wraps `RefCell<AlchemicalPtr>`.  Rust's `RefCell` keeps an
`isize` borrow flag: `0` means unused, a positive value counts live shared
(`Ref`) guards, a negative value counts live exclusive (`RefMut`) guards
(`-1` for the single `RefMut` that `try_borrow_mut` can create).
-/

/-- `RefCell::try_borrow`: succeeds (incrementing the flag) iff the
incremented flag is positive, i.e. no exclusive guard is live.  On failure
`UserDataCell::try_borrow` maps the error to `UserDataBorrowError`. -/
def tryBorrowFlag (f : Int) : Except Error Int :=
  if 0 < f + 1 then Except.ok (f + 1) else Except.error Error.userDataBorrowError

/-- `RefCell::try_borrow_mut`: succeeds (setting the flag to `-1`) iff the
flag is `0`, i.e. no guard at all is live.  On failure
`UserDataCell::try_borrow_mut` maps the error to `UserDataBorrowMutError`. -/
def tryBorrowMutFlag (f : Int) : Except Error Int :=
  if f = 0 then Except.ok (-1) else Except.error Error.userDataBorrowMutError

/-- The operations a client can perform against one cell: request a shared
view, request an exclusive view, or drop a previously obtained view
(dropping a `Ref` increments the count back down, dropping a `RefMut`
moves the flag back toward `0`; a drop only happens when such a guard is
actually live). -/
inductive CellOp where
  | borrow
  | borrowMut
  | dropShared
  | dropExclusive
deriving DecidableEq

/-- One step of the cell's borrow-state: a failed borrow request leaves the
flag unchanged, a successful one updates it; drops undo live guards. -/
def applyOp (f : Int) : CellOp → Int
  | CellOp.borrow => match tryBorrowFlag f with
      | Except.ok g => g
      | Except.error _ => f
  | CellOp.borrowMut => match tryBorrowMutFlag f with
      | Except.ok g => g
      | Except.error _ => f
  | CellOp.dropShared => if 0 < f then f - 1 else f
  | CellOp.dropExclusive => if f < 0 then f + 1 else f

/-- Run a sequence of borrow/drop operations from flag `f`. -/
def runOps (f : Int) : List CellOp → Int
  | [] => f
  | op :: rest => runOps (applyOp f op) rest

/-- Number of live shared views encoded by a flag. -/
def liveShared (f : Int) : Nat := f.toNat

/-- Number of live exclusive views encoded by a flag. -/
def liveExclusive (f : Int) : Nat := (-f).toNat

theorem applyOp_lower_bound (f : Int) (op : CellOp) (h : -1 ≤ f) :
    -1 ≤ applyOp f op := by
  cases op with
  | borrow =>
      by_cases hc : 0 < f + 1
      · simp only [applyOp, tryBorrowFlag, if_pos hc]
        omega
      · simp only [applyOp, tryBorrowFlag, if_neg hc]
        omega
  | borrowMut =>
      by_cases hc : f = 0
      · simp only [applyOp, tryBorrowMutFlag, if_pos hc]
        omega
      · simp only [applyOp, tryBorrowMutFlag, if_neg hc]
        omega
  | dropShared => simp only [applyOp]; split <;> omega
  | dropExclusive => simp only [applyOp]; split <;> omega

theorem runOps_lower_bound (ops : List CellOp) (f : Int) (h : -1 ≤ f) :
    -1 ≤ runOps f ops := by
  induction ops generalizing f with
  | nil => exact h
  | cons op rest ih => exact ih (applyOp f op) (applyOp_lower_bound f op h)

/-- C1.  For every sequence of borrow/borrow_mut/drop operations on a single
cell starting from the fresh flag: at most one exclusive view is ever live,
and an exclusive view excludes all shared views; `try_borrow_mut` succeeds
iff no shared or exclusive view is outstanding, `try_borrow` succeeds iff no
exclusive view is outstanding; a violating call returns the corresponding
borrow error (`UserDataBorrowError` / `UserDataBorrowMutError`) and leaves
the borrow flag unchanged. -/
theorem cell_borrow_discipline (ops : List CellOp) :
    (liveExclusive (runOps 0 ops) ≤ 1 ∧
      (1 ≤ liveExclusive (runOps 0 ops) → liveShared (runOps 0 ops) = 0)) ∧
    ((∃ g, tryBorrowMutFlag (runOps 0 ops) = Except.ok g) ↔
      (liveShared (runOps 0 ops) = 0 ∧ liveExclusive (runOps 0 ops) = 0)) ∧
    ((∃ g, tryBorrowFlag (runOps 0 ops) = Except.ok g) ↔
      liveExclusive (runOps 0 ops) = 0) ∧
    (liveExclusive (runOps 0 ops) ≠ 0 →
      tryBorrowFlag (runOps 0 ops) = Except.error Error.userDataBorrowError ∧
      applyOp (runOps 0 ops) CellOp.borrow = runOps 0 ops) ∧
    (¬ (liveShared (runOps 0 ops) = 0 ∧ liveExclusive (runOps 0 ops) = 0) →
      tryBorrowMutFlag (runOps 0 ops) = Except.error Error.userDataBorrowMutError ∧
      applyOp (runOps 0 ops) CellOp.borrowMut = runOps 0 ops) := by
  have hlb : -1 ≤ runOps 0 ops := runOps_lower_bound ops 0 (by omega)
  set f := runOps 0 ops with hf
  constructor
  · constructor
    · simp only [liveExclusive]; omega
    · intro h; simp only [liveExclusive] at h; simp only [liveShared]; omega
  refine ⟨?_, ?_, ?_, ?_⟩
  · constructor
    · rintro ⟨g, hg⟩
      simp only [tryBorrowMutFlag] at hg
      split at hg
      · simp only [liveShared, liveExclusive]; omega
      · exact absurd hg (by simp)
    · rintro ⟨h1, h2⟩
      simp only [liveShared, liveExclusive] at h1 h2
      refine ⟨-1, ?_⟩
      simp only [tryBorrowMutFlag]
      rw [if_pos (by omega)]
  · constructor
    · rintro ⟨g, hg⟩
      simp only [tryBorrowFlag] at hg
      split at hg
      · simp only [liveExclusive]; omega
      · exact absurd hg (by simp)
    · intro h
      simp only [liveExclusive] at h
      refine ⟨f + 1, ?_⟩
      simp only [tryBorrowFlag]
      rw [if_pos (by omega)]
  · intro h
    simp only [liveExclusive] at h
    have hneg : ¬ 0 < f + 1 := by omega
    constructor
    · simp only [tryBorrowFlag]; rw [if_neg hneg]
    · simp only [applyOp, tryBorrowFlag]; rw [if_neg hneg]
  · intro h
    simp only [liveShared, liveExclusive] at h
    have hne : ¬ f = 0 := by omega
    constructor
    · simp only [tryBorrowMutFlag]; rw [if_neg hne]
    · simp only [applyOp, tryBorrowMutFlag]; rw [if_neg hne]

/-- Closed instance of `cell_borrow_discipline`: after
`[borrow, borrowMut]` (the mutable request fails while the shared view is
live) one shared view is live, and a further `borrow_mut` fails with
`UserDataBorrowMutError`, leaving the flag unchanged. -/
theorem cell_borrow_discipline_witness :
    tryBorrowMutFlag (runOps 0 [CellOp.borrow, CellOp.borrowMut]) =
      Except.error Error.userDataBorrowMutError ∧
    applyOp (runOps 0 [CellOp.borrow, CellOp.borrowMut]) CellOp.borrowMut =
      runOps 0 [CellOp.borrow, CellOp.borrowMut] :=
  (cell_borrow_discipline [CellOp.borrow, CellOp.borrowMut]).2.2.2.2 (by decide)

/-!
## `MetaMethod` and its validation

Translated from `MetaMethod` in `src/userdata.rs` (the variants present
without a version-specific `cfg` attribute, plus the open `Custom` case),
its `name`, its `From<String>` conversion, and `MetaMethod::validate`.
`UserDataMetatable::set` additionally rejects `__index` / `__newindex`.
-/

/-- Kinds of metamethods that can be overridden (`enum MetaMethod`). -/
inductive MetaMethod where
  | add
  | sub
  | mul
  | div
  | mod
  | pow
  | unm
  | concat
  | len
  | eq
  | lt
  | le
  | index
  | newIndex
  | call
  | toString
  | custom (name : String)
deriving DecidableEq

/-- `MetaMethod::name`: the Lua metamethod name. -/
def MetaMethod.name : MetaMethod → String
  | MetaMethod.add => "__add"
  | MetaMethod.sub => "__sub"
  | MetaMethod.mul => "__mul"
  | MetaMethod.div => "__div"
  | MetaMethod.mod => "__mod"
  | MetaMethod.pow => "__pow"
  | MetaMethod.unm => "__unm"
  | MetaMethod.concat => "__concat"
  | MetaMethod.len => "__len"
  | MetaMethod.eq => "__eq"
  | MetaMethod.lt => "__lt"
  | MetaMethod.le => "__le"
  | MetaMethod.index => "__index"
  | MetaMethod.newIndex => "__newindex"
  | MetaMethod.call => "__call"
  | MetaMethod.toString => "__tostring"
  | MetaMethod.custom nm => nm

/-- `MetaMethod::validate`: a `Custom` metamethod must not be `__gc`,
`__metatable`, or start with `__mlua`; anything else passes through. -/
def MetaMethod.validate : MetaMethod → Except Error MetaMethod
  | MetaMethod.custom nm =>
      if nm = "__gc" then Except.error (Error.metaMethodRestricted nm)
      else if nm = "__metatable" then Except.error (Error.metaMethodRestricted nm)
      else if strStarts nm "__mlua" then Except.error (Error.metaMethodRestricted nm)
      else Except.ok (MetaMethod.custom nm)
  | m => Except.ok m

/-- `impl From<String> for MetaMethod`: known metamethod names map to their
variant, any other name becomes `Custom`. -/
def metaMethodOfString : String → MetaMethod
  | "__add" => MetaMethod.add
  | "__sub" => MetaMethod.sub
  | "__mul" => MetaMethod.mul
  | "__div" => MetaMethod.div
  | "__mod" => MetaMethod.mod
  | "__pow" => MetaMethod.pow
  | "__unm" => MetaMethod.unm
  | "__concat" => MetaMethod.concat
  | "__len" => MetaMethod.len
  | "__eq" => MetaMethod.eq
  | "__lt" => MetaMethod.lt
  | "__le" => MetaMethod.le
  | "__index" => MetaMethod.index
  | "__newindex" => MetaMethod.newIndex
  | "__call" => MetaMethod.call
  | "__tostring" => MetaMethod.toString
  | nm => MetaMethod.custom nm

/-- The key check performed by `UserDataMetatable::set`: the key is
validated, and `__index` / `__newindex` are additionally rejected because
their values are cached for internal usage (the `PartialEq` on
`MetaMethod` compares by `name`).  On success the write proceeds against
the returned raw name. -/
def metatableSetKeyCheck (key : MetaMethod) : Except Error String :=
  match key.validate with
  | Except.error e => Except.error e
  | Except.ok k =>
      if k.name = MetaMethod.index.name ∨ k.name = MetaMethod.newIndex.name then
        Except.error (Error.metaMethodRestricted k.name)
      else Except.ok k.name

/-!
## Lua values and the per-handle user-value slots

`AnyUserData::set_nth_user_value` / `get_nth_user_value` (Lua 5.4 path):
indices `1 ..= 65535`; indices below `USER_VALUE_MAXSLOT = 8` are stored
directly in the userdata's numbered user-value slots, larger indices are
stored in an overflow table kept in slot `USER_VALUE_MAXSLOT`, created
lazily, under the key `n - USER_VALUE_MAXSLOT + 1`.
-/

/-- A Lua value, as far as the user-value slots are concerned. -/
inductive LuaValue where
  | nil
  | num (n : Int)
  | str (s : String)
deriving DecidableEq

/-- `USER_VALUE_MAXSLOT` (Lua 5.4). -/
def USER_VALUE_MAXSLOT : Nat := 8

/-- The user-value storage attached to one userdata: the inline numbered
slots (indices below `USER_VALUE_MAXSLOT`; an unset slot reads as nil) and
the lazily created overflow table (`none` while slot `USER_VALUE_MAXSLOT`
holds no table; a missing table key reads as nil). -/
structure UVStore where
  inline : Nat → LuaValue
  overflow : Option (Nat → LuaValue)

/-- A fresh userdata's user-value storage: all slots unset. -/
def emptyUV : UVStore :=
  { inline := fun _ => LuaValue.nil, overflow := none }

/-- The store update of `set_nth_user_value` once the bounds check has
passed: small indices go to the inline slot, larger ones into the overflow
table (created if the slot does not hold a table yet). -/
def UVStore.setNth (uv : UVStore) (n : Nat) (v : LuaValue) : UVStore :=
  if n < USER_VALUE_MAXSLOT then
    { uv with inline := fun m => if m = n then v else uv.inline m }
  else
    let t := uv.overflow.getD (fun _ => LuaValue.nil)
    let updated : Nat → LuaValue :=
      fun m => if m = n - USER_VALUE_MAXSLOT + 1 then v else t m
    { uv with overflow := some updated }

/-- The store lookup of `get_nth_user_value` once the bounds check has
passed: a missing overflow table or a missing key reads as nil. -/
def UVStore.getNth (uv : UVStore) (n : Nat) : LuaValue :=
  if n < USER_VALUE_MAXSLOT then uv.inline n
  else
    match uv.overflow with
    | none => LuaValue.nil
    | some t => t (n - USER_VALUE_MAXSLOT + 1)

/-!
## Type tables and the `AnyUserData` handle

A `TypeTable` (from `hv_alchemy`) carries the stable type id, whether a
clone function was registered (`try_clone` succeeds iff so), the set of
declared dynamic capabilities (`is::<U>` / `downcast_dyn`), the set of
declared `IntoProxy<R>` conversion targets, and the `is_copy` flag.

An `AnyUserData` handle is modelled by the type table its current
metatable reports through `push_userdata_ref` (`none` for non-static
userdata, the `DestructedUserdataMT` table after `take`), the value's own
type table, the cell's borrow flag, the stored value, and the user-value
slots.
-/

/-- Per-type metadata (`hv_alchemy::TypeTable`). -/
structure TypeTable where
  id : Nat
  hasClone : Bool
  caps : List Nat
  intoProxy : List Nat
  isCopy : Bool
deriving DecidableEq

/-- The type id of `DestructedUserdataMT`. -/
def destructedId : Nat := 0

/-- The type table reported for a destructed userdata. -/
def destructedTT : TypeTable :=
  { id := destructedId, hasClone := false, caps := [], intoProxy := [], isCopy := false }

/-- State of one userdata handle. -/
structure UDState (V : Type) where
  mt : Option TypeTable
  vtt : TypeTable
  flag : Int
  value : V
  uv : UVStore

/-- A freshly created userdata of type `tt` holding `v`. -/
def newUserData (tt : TypeTable) (v : V) : UDState V :=
  { mt := some tt, vtt := tt, flag := 0, value := v, uv := emptyUV }

/-- Modelled from the spec: the user-value clearing performed on
destruction (`lua_pushnil` / `lua_setuservalue`, `protect_lua!` — the
`ffi` and `util` modules are not under `src/`); per the spec, destruction
clears all user-value slots. -/
def clearUV (_uv : UVStore) : UVStore := emptyUV

/-- The state change shared by every destructive extraction: the user
values are cleared and the metatable is replaced by the special
"destructed" metatable (`take_userdata`). -/
def destructState (s : UDState V) : UDState V :=
  { s with mt := some destructedTT, uv := clearUV s.uv }

/-- `AnyUserData::borrow::<T>` (via `inspect` and
`UserDataCell::try_borrow`): the pushed type id must equal `T`'s, then the
cell is borrowed shared; on success the shared view stays live. -/
def borrow (tid : Nat) (s : UDState V) : Except Error V × UDState V :=
  match s.mt with
  | some t =>
      if t.id = tid then
        match tryBorrowFlag s.flag with
        | Except.ok g => (Except.ok s.value, { s with flag := g })
        | Except.error e => (Except.error e, s)
      else (Except.error Error.userDataTypeMismatch, s)
  | none => (Except.error Error.userDataTypeMismatch, s)

/-- `AnyUserData::borrow_mut::<T>` (via `inspect` and
`UserDataCell::try_borrow_mut`). -/
def borrowMut (tid : Nat) (s : UDState V) : Except Error V × UDState V :=
  match s.mt with
  | some t =>
      if t.id = tid then
        match tryBorrowMutFlag s.flag with
        | Except.ok g => (Except.ok s.value, { s with flag := g })
        | Except.error e => (Except.error e, s)
      else (Except.error Error.userDataTypeMismatch, s)
  | none => (Except.error Error.userDataTypeMismatch, s)

/-- `AnyUserData::dyn_borrow::<U>` (via `inspect_raw` and
`UserDataCell::try_dyn_borrow`): a destructed handle fails first; then the
cell is borrowed shared (mapping contention to `UserDataBorrowError`);
only then is the downcast attempted (`Ref::filter_map`), failing with
`UserDataDynMismatch` and dropping the transient borrow. -/
def dynBorrow (cap : Nat) (s : UDState V) : Except Error V × UDState V :=
  match s.mt with
  | some t =>
      if t.id = destructedId then (Except.error Error.userDataDestructed, s)
      else
        match tryBorrowFlag s.flag with
        | Except.ok g =>
            if cap ∈ s.vtt.caps then (Except.ok s.value, { s with flag := g })
            else (Except.error Error.userDataDynMismatch, s)
        | Except.error e => (Except.error e, s)
  | none => (Except.error Error.userDataTypeMismatch, s)

/-- `AnyUserData::dyn_borrow_mut::<U>` (via `inspect_raw` and
`UserDataCell::try_dyn_borrow_mut`). -/
def dynBorrowMut (cap : Nat) (s : UDState V) : Except Error V × UDState V :=
  match s.mt with
  | some t =>
      if t.id = destructedId then (Except.error Error.userDataDestructed, s)
      else
        match tryBorrowMutFlag s.flag with
        | Except.ok g =>
            if cap ∈ s.vtt.caps then (Except.ok s.value, { s with flag := g })
            else (Except.error Error.userDataDynMismatch, s)
        | Except.error e => (Except.error e, s)
  | none => (Except.error Error.userDataTypeMismatch, s)

/-- `AnyUserData::take::<T>`: the pushed type id must equal `T`'s; the
cell is transiently borrowed exclusively to prove no aliases are
outstanding; then the user values are cleared, the userdata taken and the
destructed metatable installed. -/
def takeOp (tid : Nat) (s : UDState V) : Except Error V × UDState V :=
  match s.mt with
  | some t =>
      if t.id = tid then
        match tryBorrowMutFlag s.flag with
        | Except.ok _ => (Except.ok s.value, destructState s)
        | Except.error e => (Except.error e, s)
      else (Except.error Error.userDataTypeMismatch, s)
  | none => (Except.error Error.userDataTypeMismatch, s)

/-- `AnyUserData::clone_or_take::<T>`: on a matching type id the cell is
borrowed exclusively as `dyn AlchemicalAny` (contention surfaces as
`UserDataBorrowMutError`) and `try_clone` is attempted; with a registered
clone function the clone of the stored value is returned and the handle
left untouched, otherwise the value is taken exactly as `take` does.  A
`none` type table reports `UserDataDestructed`. -/
def cloneOrTake (tid : Nat) (s : UDState V) : Except Error V × UDState V :=
  match s.mt with
  | some t =>
      if t.id = tid then
        match tryBorrowMutFlag s.flag with
        | Except.ok _ =>
            if s.vtt.hasClone then (Except.ok s.value, s)
            else (Except.ok s.value, destructState s)
        | Except.error e => (Except.error e, s)
      else (Except.error Error.userDataTypeMismatch, s)
  | none => (Except.error Error.userDataDestructed, s)

/-- `AnyUserData::dyn_take::<U>`: any non-destructed type table is
accepted; the cell is borrowed exclusively (contention surfaces as
`UserDataBorrowMutError`), the downcast to `U` failing with
`UserDataDynMismatch`; on success all user-value slots are cleared and the
userdata taken. -/
def dynTake (cap : Nat) (s : UDState V) : Except Error V × UDState V :=
  match s.mt with
  | some t =>
      if t.id = destructedId then (Except.error Error.userDataDestructed, s)
      else
        match tryBorrowMutFlag s.flag with
        | Except.ok _ =>
            if cap ∈ s.vtt.caps then (Except.ok s.value, destructState s)
            else (Except.error Error.userDataDynMismatch, s)
        | Except.error e => (Except.error e, s)
  | none => (Except.error Error.userDataTypeMismatch, s)

/-- `AnyUserData::dyn_clone_or_take::<U>`: the pushed type table must be
non-destructed *and* declare `U` (`type_table.is::<U>()`), any other
`Some` table reporting `UserDataDestructed`; the cell is borrowed
exclusively as `dyn AlchemicalAny` and `try_clone` attempted, falling back
to taking the value. -/
def dynCloneOrTake (cap : Nat) (s : UDState V) : Except Error V × UDState V :=
  match s.mt with
  | some t =>
      if t.id ≠ destructedId ∧ cap ∈ t.caps then
        match tryBorrowMutFlag s.flag with
        | Except.ok _ =>
            if s.vtt.hasClone then (Except.ok s.value, s)
            else (Except.ok s.value, destructState s)
        | Except.error e => (Except.error e, s)
      else (Except.error Error.userDataDestructed, s)
  | none => (Except.error Error.userDataTypeMismatch, s)

/-- `AnyUserData::convert_into::<T>`: on a non-destructed handle the
declared `IntoProxy<T>` capability is looked up first
(`UserDataDynMismatch` if absent); then the cell is transiently borrowed
exclusively (contention surfaces as `UserDataBorrowMutError`) and the
conversion invoked; for a `Copy` type the handle is left intact, otherwise
the user values are cleared and the userdata taken as `take` does. -/
def convertInto (conv : V → V) (target : Nat) (s : UDState V) :
    Except Error V × UDState V :=
  match s.mt with
  | some t =>
      if t.id = destructedId then (Except.error Error.userDataDestructed, s)
      else
        if target ∈ t.intoProxy then
          match tryBorrowMutFlag s.flag with
          | Except.ok _ =>
              if t.isCopy then (Except.ok (conv s.value), s)
              else (Except.ok (conv s.value), destructState s)
          | Except.error _ => (Except.error Error.userDataBorrowMutError, s)
        else (Except.error Error.userDataDynMismatch, s)
  | none => (Except.error Error.userDataTypeMismatch, s)

/-- `AnyUserData::set_nth_user_value`: `n` outside `1 ..= 65535` (the
`u16::MAX` bound) is a `RuntimeError`; otherwise the slot is written.  No
destructed check is performed. -/
def setNthUserValue (s : UDState V) (n : Nat) (v : LuaValue) :
    Except Error Unit × UDState V :=
  if n < 1 ∨ 65535 < n then
    (Except.error (Error.runtimeError "user value index out of bounds"), s)
  else (Except.ok (), { s with uv := s.uv.setNth n v })

/-- `AnyUserData::get_nth_user_value`: `n` outside `1 ..= 65535` is a
`RuntimeError`; otherwise the slot is read, an unset slot reading as nil.
No destructed check is performed. -/
def getNthUserValue (s : UDState V) (n : Nat) : Except Error LuaValue :=
  if n < 1 ∨ 65535 < n then
    Except.error (Error.runtimeError "user value index out of bounds")
  else Except.ok (s.uv.getNth n)

theorem UVStore.getNth_setNth (uv : UVStore) (n : Nat) (v : LuaValue) :
    (uv.setNth n v).getNth n = v := by
  by_cases h : n < USER_VALUE_MAXSLOT
  · simp [UVStore.setNth, UVStore.getNth, h]
  · simp [UVStore.setNth, UVStore.getNth, h]

theorem UVStore.getNth_empty (n : Nat) : emptyUV.getNth n = LuaValue.nil := by
  by_cases h : n < USER_VALUE_MAXSLOT
  · simp [emptyUV, UVStore.getNth, h]
  · simp [emptyUV, UVStore.getNth, h]

/-- C7.  For every slot index `n` in `[1, 65535]` and every value `v`,
`set_nth_user_value(n, v)` followed by `get_nth_user_value(n)` on the same
handle returns `v`; `get_nth_user_value` of a slot in `[1, 65535]` that
was never set returns nil rather than an error; and both operations with
`n = 0` or `n > 65535` return a `RuntimeError`. -/
theorem user_value_roundtrip (V : Type) (s : UDState V) (tt : TypeTable)
    (v0 : V) (n : Nat) (v : LuaValue) :
    (1 ≤ n → n ≤ 65535 →
      (setNthUserValue s n v).1 = Except.ok () ∧
      getNthUserValue (setNthUserValue s n v).2 n = Except.ok v) ∧
    (1 ≤ n → n ≤ 65535 →
      getNthUserValue (newUserData tt v0) n = Except.ok LuaValue.nil) ∧
    ((setNthUserValue s 0 v).1 =
        Except.error (Error.runtimeError "user value index out of bounds") ∧
      getNthUserValue s 0 =
        Except.error (Error.runtimeError "user value index out of bounds")) ∧
    (65535 < n →
      (setNthUserValue s n v).1 =
        Except.error (Error.runtimeError "user value index out of bounds") ∧
      getNthUserValue s n =
        Except.error (Error.runtimeError "user value index out of bounds")) := by
  refine ⟨?_, ?_, ?_, ?_⟩
  · intro h1 h2
    have hin : ¬ (n < 1 ∨ 65535 < n) := by omega
    constructor
    · simp only [setNthUserValue]
      rw [if_neg hin]
    · simp only [setNthUserValue, getNthUserValue]
      rw [if_neg hin, if_neg hin]
      simp [UVStore.getNth_setNth]
  · intro h1 h2
    have hin : ¬ (n < 1 ∨ 65535 < n) := by omega
    simp only [getNthUserValue]
    rw [if_neg hin]
    simp [newUserData, UVStore.getNth_empty]
  · have hin : (0 : Nat) < 1 ∨ 65535 < (0 : Nat) := Or.inl (by omega)
    constructor
    · simp only [setNthUserValue]
      rw [if_pos hin]
    · simp only [getNthUserValue]
      rw [if_pos hin]
  · intro h
    have hin : n < 1 ∨ 65535 < n := Or.inr h
    constructor
    · simp only [setNthUserValue]
      rw [if_pos hin]
    · simp only [getNthUserValue]
      rw [if_pos hin]

/-- Closed instance of `user_value_roundtrip` at slot 9 (an overflow-table
slot): setting then getting returns the value, and a fresh handle reads
nil. -/
theorem user_value_roundtrip_witness :
    ((setNthUserValue (newUserData destructedTT (0 : Int)) 9 (LuaValue.num 7)).1 =
        Except.ok () ∧
      getNthUserValue
        (setNthUserValue (newUserData destructedTT (0 : Int)) 9 (LuaValue.num 7)).2 9 =
        Except.ok (LuaValue.num 7)) ∧
    getNthUserValue (newUserData destructedTT (0 : Int)) 9 = Except.ok LuaValue.nil :=
  ⟨(user_value_roundtrip Int (newUserData destructedTT 0) destructedTT 0 9
      (LuaValue.num 7)).1 (by omega) (by omega),
    (user_value_roundtrip Int (newUserData destructedTT 0) destructedTT 0 9
      (LuaValue.num 7)).2.1 (by omega) (by omega)⟩

/-- C8.  Registering a custom metamethod named `__gc` or `__metatable`, or
one starting with the internal-use `__mlua` name pattern, fails
`MetaMethod::validate` with the restricted-metamethod error, and
`UserDataMetatable::set` additionally rejects the `__index` and
`__newindex` keys because their resolution is cached at registration
time. -/
theorem restricted_metamethods (nm : String) :
    metaMethodOfString "__gc" = MetaMethod.custom "__gc" ∧
    (MetaMethod.custom "__gc").validate =
      Except.error (Error.metaMethodRestricted "__gc") ∧
    metaMethodOfString "__metatable" = MetaMethod.custom "__metatable" ∧
    (MetaMethod.custom "__metatable").validate =
      Except.error (Error.metaMethodRestricted "__metatable") ∧
    (strStarts nm "__mlua" = true →
      (MetaMethod.custom nm).validate =
        Except.error (Error.metaMethodRestricted nm)) ∧
    metatableSetKeyCheck (metaMethodOfString "__index") =
      Except.error (Error.metaMethodRestricted "__index") ∧
    metatableSetKeyCheck (metaMethodOfString "__newindex") =
      Except.error (Error.metaMethodRestricted "__newindex") := by
  refine ⟨by decide, by decide, by decide, by decide, ?_, by decide, by decide⟩
  intro h
  simp only [MetaMethod.validate]
  by_cases h1 : nm = "__gc"
  · rw [if_pos h1, h1]
  · by_cases h2 : nm = "__metatable"
    · rw [if_neg h1, if_pos h2, h2]
    · rw [if_neg h1, if_neg h2, if_pos h]

/-- Closed instance of `restricted_metamethods`: the custom name
`"__mluaInternal"` is rejected by validation. -/
theorem restricted_metamethods_witness :
    (MetaMethod.custom "__mluaInternal").validate =
      Except.error (Error.metaMethodRestricted "__mluaInternal") :=
  (restricted_metamethods "__mluaInternal").2.2.2.2.1 (by decide)

theorem takeOp_success {V : Type} (s : UDState V) (t : TypeTable) (tid : Nat)
    (hmt : s.mt = some t) (hid : t.id = tid) (hflag : s.flag = 0) :
    takeOp tid s = (Except.ok s.value, destructState s) := by
  simp [takeOp, hmt, hid, tryBorrowMutFlag, hflag]

/-- An example registered type table: no clone function, no capabilities. -/
def exampleTT : TypeTable :=
  { id := 1, hasClone := false, caps := [], intoProxy := [], isCopy := false }

/-- An example registered type table with a clone function and the
declared capability `10`. -/
def exampleCloneTT : TypeTable :=
  { id := 2, hasClone := true, caps := [10], intoProxy := [20], isCopy := false }

/-- An example registered `Copy` type table with conversion target `20`. -/
def exampleCopyTT : TypeTable :=
  { id := 3, hasClone := false, caps := [], intoProxy := [20], isCopy := true }

/-- A handle on an `exampleCloneTT` value with one shared view live. -/
def sharedBorrowState : UDState Int :=
  { mt := some exampleCloneTT, vtt := exampleCloneTT, flag := 1, value := 5, uv := emptyUV }

/-- A handle on an `exampleTT` value with an exclusive view live. -/
def exclusiveBorrowState : UDState Int :=
  { mt := some exampleTT, vtt := exampleTT, flag := -1, value := 0, uv := emptyUV }

/-- C2 counterexample.  After a successful `take` the handle's metatable is
the destructed one, whose type id no longer matches: `borrow` fails with
`UserDataTypeMismatch`, not with the Destructed error the claim names, and
`set_nth_user_value` (which performs no destructed check) still
succeeds. -/
theorem take_then_borrow_counterexample :
    (takeOp 1 (newUserData exampleTT (0 : Int))).1 = Except.ok 0 ∧
    (borrow 1 (takeOp 1 (newUserData exampleTT (0 : Int))).2).1 =
      Except.error Error.userDataTypeMismatch ∧
    (borrow 1 (takeOp 1 (newUserData exampleTT (0 : Int))).2).1 ≠
      Except.error Error.userDataDestructed ∧
    (setNthUserValue (takeOp 1 (newUserData exampleTT (0 : Int))).2 1
      (LuaValue.num 5)).1 = Except.ok () := by
  decide

/-- C2 (amended).  After a successful `take`: the dynamic operations
(`dyn_borrow`, `dyn_borrow_mut`, `dyn_take`, `dyn_clone_or_take`,
`convert_into`) return the Destructed error; the typed operations
(`borrow`, `borrow_mut`, `take`, `clone_or_take`) return the
type-mismatch error, because the destructed metatable's id matches no
registered type; and the user-value operations perform no destructed
check, so they still succeed (the cleared slots read as nil).
Identity/equality comparison is unaffected. -/
theorem take_then_ops_amended (V : Type) (s : UDState V) (t : TypeTable)
    (tid tid2 cap n : Nat) (v : LuaValue) (conv : V → V)
    (hmt : s.mt = some t) (hid : t.id = tid) (hflag : s.flag = 0)
    (htid2 : tid2 ≠ destructedId) (hn1 : 1 ≤ n) (hn2 : n ≤ 65535) :
    (takeOp tid s).1 = Except.ok s.value ∧
    (borrow tid2 (takeOp tid s).2).1 = Except.error Error.userDataTypeMismatch ∧
    (borrowMut tid2 (takeOp tid s).2).1 = Except.error Error.userDataTypeMismatch ∧
    (takeOp tid2 (takeOp tid s).2).1 = Except.error Error.userDataTypeMismatch ∧
    (cloneOrTake tid2 (takeOp tid s).2).1 = Except.error Error.userDataTypeMismatch ∧
    (dynBorrow cap (takeOp tid s).2).1 = Except.error Error.userDataDestructed ∧
    (dynBorrowMut cap (takeOp tid s).2).1 = Except.error Error.userDataDestructed ∧
    (dynTake cap (takeOp tid s).2).1 = Except.error Error.userDataDestructed ∧
    (dynCloneOrTake cap (takeOp tid s).2).1 = Except.error Error.userDataDestructed ∧
    (convertInto conv cap (takeOp tid s).2).1 = Except.error Error.userDataDestructed ∧
    (setNthUserValue (takeOp tid s).2 n v).1 = Except.ok () ∧
    getNthUserValue (takeOp tid s).2 n = Except.ok LuaValue.nil := by
  have htake := takeOp_success s t tid hmt hid hflag
  have hne : destructedTT.id ≠ tid2 := fun hc => htid2 hc.symm
  have hin : ¬ (n < 1 ∨ 65535 < n) := by omega
  rw [htake]
  refine ⟨rfl, ?_, ?_, ?_, ?_, ?_, ?_, ?_, ?_, ?_, ?_, ?_⟩
  · simp [borrow, destructState, hne]
  · simp [borrowMut, destructState, hne]
  · simp [takeOp, destructState, hne]
  · simp [cloneOrTake, destructState, hne]
  · simp [dynBorrow, destructState, destructedTT]
  · simp [dynBorrowMut, destructState, destructedTT]
  · simp [dynTake, destructState, destructedTT]
  · simp [dynCloneOrTake, destructState, destructedTT]
  · simp [convertInto, destructState, destructedTT]
  · simp only [setNthUserValue]
    rw [if_neg hin]
  · simp only [getNthUserValue]
    rw [if_neg hin]
    simp [destructState, clearUV, UVStore.getNth_empty]

/-- Closed instance of `take_then_ops_amended` at a concrete handle. -/
theorem take_then_ops_amended_witness :
    (takeOp 1 (newUserData exampleTT (0 : Int))).1 = Except.ok 0 ∧
    (borrowMut 1 (takeOp 1 (newUserData exampleTT (0 : Int))).2).1 =
      Except.error Error.userDataTypeMismatch ∧
    (dynBorrow 10 (takeOp 1 (newUserData exampleTT (0 : Int))).2).1 =
      Except.error Error.userDataDestructed ∧
    getNthUserValue (takeOp 1 (newUserData exampleTT (0 : Int))).2 1 =
      Except.ok LuaValue.nil := by
  have h := take_then_ops_amended Int (newUserData exampleTT 0) exampleTT 1 1 10 1
    (LuaValue.num 3) (fun v => v) rfl rfl rfl (by decide) (by omega) (by omega)
  exact ⟨h.1, h.2.2.1, h.2.2.2.2.2.1, h.2.2.2.2.2.2.2.2.2.2.2⟩

/-- C4.  `clone_or_take` on a handle whose stored type has a declared
clone function never changes the handle state (in particular it never
destructs it) and, when the exclusive borrow succeeds, returns a value
equal to the stored one; on a type without a clone function it moves the
value out, clears the user values, and marks the handle destructed,
producing exactly the state `take` produces. -/
theorem clone_or_take_spec (V : Type) (s : UDState V) (t : TypeTable) (tid : Nat)
    (hmt : s.mt = some t) (hid : t.id = tid) :
    (s.vtt.hasClone = true →
      (cloneOrTake tid s).2 = s ∧
      (s.flag = 0 → (cloneOrTake tid s).1 = Except.ok s.value)) ∧
    (s.vtt.hasClone = false → s.flag = 0 →
      cloneOrTake tid s = (Except.ok s.value, destructState s) ∧
      (cloneOrTake tid s).2 = (takeOp tid s).2 ∧
      (cloneOrTake tid s).2.mt = some destructedTT ∧
      (cloneOrTake tid s).2.uv = emptyUV) := by
  constructor
  · intro hc
    constructor
    · by_cases hf : s.flag = 0
      · simp [cloneOrTake, hmt, hid, tryBorrowMutFlag, hf, hc]
      · simp [cloneOrTake, hmt, hid, tryBorrowMutFlag, hf]
    · intro hf
      simp [cloneOrTake, hmt, hid, tryBorrowMutFlag, hf, hc]
  · intro hc hf
    have h1 : cloneOrTake tid s = (Except.ok s.value, destructState s) := by
      simp [cloneOrTake, hmt, hid, tryBorrowMutFlag, hf, hc]
    refine ⟨h1, ?_, ?_, ?_⟩
    · rw [h1, takeOp_success s t tid hmt hid hf]
    · rw [h1]; rfl
    · rw [h1]; rfl

/-- Closed instance of `clone_or_take_spec`: on a cloneable type the
handle is untouched and the stored value is returned. -/
theorem clone_or_take_spec_witness :
    (cloneOrTake 2 (newUserData exampleCloneTT (5 : Int))).2 =
      newUserData exampleCloneTT 5 ∧
    (cloneOrTake 2 (newUserData exampleCloneTT (5 : Int))).1 = Except.ok 5 := by
  have h := clone_or_take_spec Int (newUserData exampleCloneTT 5) exampleCloneTT 2
    rfl rfl
  exact ⟨(h.1 rfl).1, (h.1 rfl).2 rfl⟩

/-- C5 counterexample.  With an exclusive view outstanding and the
capability undeclared, `dyn_borrow` reports the borrow error, not the
capability mismatch the claim says takes precedence: the capability check
is not independent of the borrow-state check. -/
theorem dyn_borrow_order_counterexample :
    (dynBorrow 10 exclusiveBorrowState).1 = Except.error Error.userDataBorrowError ∧
    (dynBorrow 10 exclusiveBorrowState).1 ≠ Except.error Error.userDataDynMismatch ∧
    (dynBorrowMut 10 exclusiveBorrowState).1 =
      Except.error Error.userDataBorrowMutError ∧
    (dynBorrowMut 10 exclusiveBorrowState).1 ≠
      Except.error Error.userDataDynMismatch := by
  decide

/-- C5 (amended).  `dyn_borrow` / `dyn_borrow_mut` fail with the
Destructed error if the handle was already emptied; otherwise they first
attempt the cell borrow, so borrow errors (`UserDataBorrowError` /
`UserDataBorrowMutError`) take precedence; only when the transient borrow
succeeds is the capability checked, failing with `UserDataDynMismatch` if
undeclared (releasing the transient borrow, leaving the state unchanged),
and otherwise the borrow stays live. -/
theorem dyn_borrow_spec_amended (V : Type) (s : UDState V) (t : TypeTable)
    (cap : Nat) (hmt : s.mt = some t) :
    (t.id = destructedId →
      dynBorrow cap s = (Except.error Error.userDataDestructed, s) ∧
      dynBorrowMut cap s = (Except.error Error.userDataDestructed, s)) ∧
    (t.id ≠ destructedId →
      (s.flag < 0 → dynBorrow cap s = (Except.error Error.userDataBorrowError, s)) ∧
      (0 ≤ s.flag → cap ∉ s.vtt.caps →
        dynBorrow cap s = (Except.error Error.userDataDynMismatch, s)) ∧
      (0 ≤ s.flag → cap ∈ s.vtt.caps →
        dynBorrow cap s = (Except.ok s.value, { s with flag := s.flag + 1 })) ∧
      (s.flag ≠ 0 →
        dynBorrowMut cap s = (Except.error Error.userDataBorrowMutError, s)) ∧
      (s.flag = 0 → cap ∉ s.vtt.caps →
        dynBorrowMut cap s = (Except.error Error.userDataDynMismatch, s)) ∧
      (s.flag = 0 → cap ∈ s.vtt.caps →
        dynBorrowMut cap s = (Except.ok s.value, { s with flag := -1 }))) := by
  constructor
  · intro hd
    constructor
    · simp [dynBorrow, hmt, hd]
    · simp [dynBorrowMut, hmt, hd]
  · intro hd
    refine ⟨?_, ?_, ?_, ?_, ?_, ?_⟩
    · intro hf
      have hneg : ¬ 0 < s.flag + 1 := by omega
      simp [dynBorrow, hmt, hd, tryBorrowFlag, hneg]
    · intro hf hcap
      have hpos : 0 < s.flag + 1 := by omega
      simp [dynBorrow, hmt, hd, tryBorrowFlag, hpos, hcap]
    · intro hf hcap
      have hpos : 0 < s.flag + 1 := by omega
      simp [dynBorrow, hmt, hd, tryBorrowFlag, hpos, hcap]
    · intro hf
      simp [dynBorrowMut, hmt, hd, tryBorrowMutFlag, hf]
    · intro hf hcap
      simp [dynBorrowMut, hmt, hd, tryBorrowMutFlag, hf, hcap]
    · intro hf hcap
      simp [dynBorrowMut, hmt, hd, tryBorrowMutFlag, hf, hcap]

/-- Closed instance of `dyn_borrow_spec_amended`: a successful dynamic
borrow on a fresh handle with the capability declared. -/
theorem dyn_borrow_spec_amended_witness :
    dynBorrow 10 (newUserData exampleCloneTT (5 : Int)) =
      (Except.ok 5, { newUserData exampleCloneTT 5 with flag := 0 + 1 }) := by
  have h := dyn_borrow_spec_amended Int (newUserData exampleCloneTT 5)
    exampleCloneTT 10 rfl
  exact (h.2 (by decide)).2.2.1 (by decide) (by decide)

/-- C9.  `convert_into` on a non-destructed handle fails with the
capability-mismatch error when no conversion-to-target capability is
declared; when it is declared, it transiently acquires an exclusive
borrow (contention failing with `UserDataBorrowMutError`), produces the
converted value, and — unless the stored type is `Copy` — clears the user
values and destructs the handle exactly as `take` does, whereas for a
`Copy` type the handle is left intact. -/
theorem convert_into_spec (V : Type) (s : UDState V) (t : TypeTable)
    (target : Nat) (conv : V → V) (hmt : s.mt = some t)
    (hnd : t.id ≠ destructedId) :
    (target ∉ t.intoProxy →
      convertInto conv target s = (Except.error Error.userDataDynMismatch, s)) ∧
    (target ∈ t.intoProxy → s.flag ≠ 0 →
      convertInto conv target s = (Except.error Error.userDataBorrowMutError, s)) ∧
    (target ∈ t.intoProxy → s.flag = 0 →
      (convertInto conv target s).1 = Except.ok (conv s.value) ∧
      (t.isCopy = true → (convertInto conv target s).2 = s) ∧
      (t.isCopy = false →
        (convertInto conv target s).2 = destructState s ∧
        (convertInto conv target s).2 = (takeOp t.id s).2)) := by
  refine ⟨?_, ?_, ?_⟩
  · intro hp
    simp [convertInto, hmt, hnd, hp]
  · intro hp hf
    simp [convertInto, hmt, hnd, hp, tryBorrowMutFlag, hf]
  · intro hp hf
    refine ⟨?_, ?_, ?_⟩
    · by_cases hcopy : t.isCopy <;>
        simp [convertInto, hmt, hnd, hp, tryBorrowMutFlag, hf, hcopy]
    · intro hcopy
      simp [convertInto, hmt, hnd, hp, tryBorrowMutFlag, hf, hcopy]
    · intro hcopy
      have h2 : (convertInto conv target s).2 = destructState s := by
        simp [convertInto, hmt, hnd, hp, tryBorrowMutFlag, hf, hcopy]
      refine ⟨h2, ?_⟩
      rw [h2, takeOp_success s t t.id hmt rfl hf]

/-- Closed instance of `convert_into_spec`: converting a `Copy` type
returns the converted value and leaves the handle intact. -/
theorem convert_into_spec_witness :
    (convertInto (fun v => v + 1) 20 (newUserData exampleCopyTT (5 : Int))).1 =
      Except.ok 6 ∧
    (convertInto (fun v => v + 1) 20 (newUserData exampleCopyTT (5 : Int))).2 =
      newUserData exampleCopyTT 5 := by
  have h := convert_into_spec Int (newUserData exampleCopyTT 5) exampleCopyTT 20
    (fun v => v + 1) rfl (by decide)
  have h3 := h.2.2 (by decide) rfl
  exact ⟨by simpa using h3.1, h3.2.1 rfl⟩

/-- C10.  `clone_or_take` and `dyn_clone_or_take` acquire an exclusive
borrow before attempting the clone, so with any shared borrow outstanding
they fail with `UserDataBorrowMutError` — the statement places no
condition on the clone function, so this holds in particular for a type
with one, where read access would have sufficed — and the handle state
(user values included) is left unchanged. -/
theorem clone_or_take_borrow_contention (V : Type) (s : UDState V)
    (t : TypeTable) (tid cap : Nat) (hmt : s.mt = some t)
    (hshared : 0 < s.flag) :
    (t.id = tid →
      cloneOrTake tid s = (Except.error Error.userDataBorrowMutError, s)) ∧
    (t.id ≠ destructedId → cap ∈ t.caps →
      dynCloneOrTake cap s = (Except.error Error.userDataBorrowMutError, s)) := by
  have hf : ¬ s.flag = 0 := by omega
  constructor
  · intro hid
    simp [cloneOrTake, hmt, hid, tryBorrowMutFlag, hf]
  · intro hnd hcap
    simp [dynCloneOrTake, hmt, hnd, hcap, tryBorrowMutFlag, hf]

/-- Closed instance of `clone_or_take_borrow_contention` at a cloneable
type with one shared view live. -/
theorem clone_or_take_borrow_contention_witness :
    cloneOrTake 2 sharedBorrowState =
      (Except.error Error.userDataBorrowMutError, sharedBorrowState) ∧
    dynCloneOrTake 10 sharedBorrowState =
      (Except.error Error.userDataBorrowMutError, sharedBorrowState) := by
  have h := clone_or_take_borrow_contention Int sharedBorrowState exampleCloneTT
    2 10 rfl (by decide)
  exact ⟨h.1 rfl, h.2 (by decide) (by decide)⟩

/-!
## The proxy forwarding layer

`UserDataMethodsProxy` / `UserDataFieldsProxy` rewrite each registration
on a wrapper type `W` providing guarded access to an inner type `U`
(`NonBlockingGuardedBorrow` / `NonBlockingGuardedMutBorrowMut`).  A
registry records the callbacks a `UserData` implementation installs;
the `Mutable` policy wraps each receiver-taking callback in a
non-blocking guard acquisition, the `Immutable` policy replaces every
mutable entry point with an unconditional failure.
-/

/-- The callbacks registered for a userdata type with receiver type `W`. -/
structure UserDataRegistry (W : Type) where
  methods : List (String × (W → List LuaValue → Except Error LuaValue))
  mutMethods : List (String × (W → List LuaValue → Except Error LuaValue))
  functions : List (String × (List LuaValue → Except Error LuaValue))
  metaMethods : List (MetaMethod × (W → List LuaValue → Except Error LuaValue))
  metaMutMethods : List (MetaMethod × (W → List LuaValue → Except Error LuaValue))
  metaFunctions : List (MetaMethod × (List LuaValue → Except Error LuaValue))
  fieldGetters : List (String × (W → Except Error LuaValue))
  fieldSetters : List (String × (W → LuaValue → Except Error Unit))

/-- `UserDataMethods::add_method`. -/
def UserDataRegistry.addMethod (r : UserDataRegistry W) (name : String)
    (cb : W → List LuaValue → Except Error LuaValue) : UserDataRegistry W :=
  { r with methods := r.methods ++ [(name, cb)] }

/-- `UserDataMethods::add_method_mut`. -/
def UserDataRegistry.addMethodMut (r : UserDataRegistry W) (name : String)
    (cb : W → List LuaValue → Except Error LuaValue) : UserDataRegistry W :=
  { r with mutMethods := r.mutMethods ++ [(name, cb)] }

/-- `UserDataMethods::add_function`. -/
def UserDataRegistry.addFunction (r : UserDataRegistry W) (name : String)
    (cb : List LuaValue → Except Error LuaValue) : UserDataRegistry W :=
  { r with functions := r.functions ++ [(name, cb)] }

/-- `UserDataMethods::add_meta_method`. -/
def UserDataRegistry.addMetaMethod (r : UserDataRegistry W) (meta : MetaMethod)
    (cb : W → List LuaValue → Except Error LuaValue) : UserDataRegistry W :=
  { r with metaMethods := r.metaMethods ++ [(meta, cb)] }

/-- `UserDataMethods::add_meta_method_mut`. -/
def UserDataRegistry.addMetaMethodMut (r : UserDataRegistry W) (meta : MetaMethod)
    (cb : W → List LuaValue → Except Error LuaValue) : UserDataRegistry W :=
  { r with metaMutMethods := r.metaMutMethods ++ [(meta, cb)] }

/-- `UserDataMethods::add_meta_function`. -/
def UserDataRegistry.addMetaFunction (r : UserDataRegistry W) (meta : MetaMethod)
    (cb : List LuaValue → Except Error LuaValue) : UserDataRegistry W :=
  { r with metaFunctions := r.metaFunctions ++ [(meta, cb)] }

/-- `UserDataFields::add_field_method_get`. -/
def UserDataRegistry.addFieldGetter (r : UserDataRegistry W) (name : String)
    (cb : W → Except Error LuaValue) : UserDataRegistry W :=
  { r with fieldGetters := r.fieldGetters ++ [(name, cb)] }

/-- `UserDataFields::add_field_method_set`. -/
def UserDataRegistry.addFieldSetter (r : UserDataRegistry W) (name : String)
    (cb : W → LuaValue → Except Error Unit) : UserDataRegistry W :=
  { r with fieldSetters := r.fieldSetters ++ [(name, cb)] }

/-- The guarded-borrow interface the wrapper `W` offers over the inner
type `U` (`NonBlockingGuardedBorrow::try_nonblocking_guarded_borrow` and
`NonBlockingGuardedMutBorrowMut::try_nonblocking_guarded_mut_borrow_mut`,
with the guard's access collapsed to the guarded value). -/
structure GuardedBorrow (W U : Type) where
  tryBorrow : W → Except Unit U
  tryBorrowMut : W → Except Unit U

/-- The callback the `Mutable` proxy's `add_method` registers: acquire a
non-blocking shared guard (failure surfacing as
`UserDataProxyBorrowError`), then invoke the inner callback on the
guarded value. -/
def proxyBorrowWrap (gb : GuardedBorrow W U)
    (m : U → List LuaValue → Except Error LuaValue) :
    W → List LuaValue → Except Error LuaValue :=
  fun this args =>
    match gb.tryBorrow this with
    | Except.error _ => Except.error Error.userDataProxyBorrowError
    | Except.ok guard => m guard args

/-- The callback the `Mutable` proxy's `add_method_mut` registers:
acquire a non-blocking exclusive guard (failure surfacing as
`UserDataProxyBorrowMutError`), then invoke the inner callback. -/
def proxyBorrowMutWrap (gb : GuardedBorrow W U)
    (m : U → List LuaValue → Except Error LuaValue) :
    W → List LuaValue → Except Error LuaValue :=
  fun this args =>
    match gb.tryBorrowMut this with
    | Except.error _ => Except.error Error.userDataProxyBorrowMutError
    | Except.ok guard => m guard args

/-- The callback the `Mutable` proxy's `add_field_method_set` registers. -/
def proxySetterWrap (gb : GuardedBorrow W U)
    (m : U → LuaValue → Except Error Unit) : W → LuaValue → Except Error Unit :=
  fun this arg =>
    match gb.tryBorrowMut this with
    | Except.error _ => Except.error Error.userDataProxyBorrowMutError
    | Except.ok guard => m guard arg

/-- The callback the `Immutable` proxy registers for every mutable method
entry point: unconditionally fail with `UserDataProxyBorrowMutError`. -/
def immutableMutReject (W : Type) : W → List LuaValue → Except Error LuaValue :=
  fun _ _ => Except.error Error.userDataProxyBorrowMutError

/-- The callback the `Immutable` proxy registers for
`add_field_method_set`: unconditionally fail with
`UserDataProxyBorrowMutError`. -/
def immutableSetterReject (W : Type) : W → LuaValue → Except Error Unit :=
  fun _ _ => Except.error Error.userDataProxyBorrowMutError

/-- `UserDataMethodsProxy<.., Mutable>::add_method`. -/
def mutableProxyAddMethod (gb : GuardedBorrow W U) (r : UserDataRegistry W)
    (name : String) (m : U → List LuaValue → Except Error LuaValue) :
    UserDataRegistry W :=
  r.addMethod name (proxyBorrowWrap gb m)

/-- `UserDataMethodsProxy<.., Mutable>::add_method_mut`. -/
def mutableProxyAddMethodMut (gb : GuardedBorrow W U) (r : UserDataRegistry W)
    (name : String) (m : U → List LuaValue → Except Error LuaValue) :
    UserDataRegistry W :=
  r.addMethodMut name (proxyBorrowMutWrap gb m)

/-- `UserDataMethodsProxy<.., Mutable>::add_function`: passed through
unchanged. -/
def mutableProxyAddFunction (r : UserDataRegistry W) (name : String)
    (f : List LuaValue → Except Error LuaValue) : UserDataRegistry W :=
  r.addFunction name f

/-- `UserDataMethodsProxy<.., Mutable>::add_meta_method`. -/
def mutableProxyAddMetaMethod (gb : GuardedBorrow W U) (r : UserDataRegistry W)
    (meta : MetaMethod) (m : U → List LuaValue → Except Error LuaValue) :
    UserDataRegistry W :=
  r.addMetaMethod meta (proxyBorrowWrap gb m)

/-- `UserDataMethodsProxy<.., Mutable>::add_meta_method_mut`. -/
def mutableProxyAddMetaMethodMut (gb : GuardedBorrow W U)
    (r : UserDataRegistry W) (meta : MetaMethod)
    (m : U → List LuaValue → Except Error LuaValue) : UserDataRegistry W :=
  r.addMetaMethodMut meta (proxyBorrowMutWrap gb m)

/-- `UserDataMethodsProxy<.., Mutable>::add_meta_function`: passed through
unchanged. -/
def mutableProxyAddMetaFunction (r : UserDataRegistry W) (meta : MetaMethod)
    (f : List LuaValue → Except Error LuaValue) : UserDataRegistry W :=
  r.addMetaFunction meta f

/-- `UserDataFieldsProxy<.., Mutable>::add_field_method_set`. -/
def mutableProxyAddFieldMethodSet (gb : GuardedBorrow W U)
    (r : UserDataRegistry W) (name : String)
    (m : U → LuaValue → Except Error Unit) : UserDataRegistry W :=
  r.addFieldSetter name (proxySetterWrap gb m)

/-- `UserDataMethodsProxy<.., Immutable>::add_method`: identical to the
`Mutable` read path. -/
def immutableProxyAddMethod (gb : GuardedBorrow W U) (r : UserDataRegistry W)
    (name : String) (m : U → List LuaValue → Except Error LuaValue) :
    UserDataRegistry W :=
  r.addMethod name (proxyBorrowWrap gb m)

/-- `UserDataMethodsProxy<.., Immutable>::add_method_mut`: the supplied
method is discarded and an unconditionally failing callback installed. -/
def immutableProxyAddMethodMut (r : UserDataRegistry W) (name : String)
    (_m : U → List LuaValue → Except Error LuaValue) : UserDataRegistry W :=
  r.addMethodMut name (immutableMutReject W)

/-- `UserDataMethodsProxy<.., Immutable>::add_meta_method_mut`. -/
def immutableProxyAddMetaMethodMut (r : UserDataRegistry W) (meta : MetaMethod)
    (_m : U → List LuaValue → Except Error LuaValue) : UserDataRegistry W :=
  r.addMetaMethodMut meta (immutableMutReject W)

/-- `UserDataFieldsProxy<.., Immutable>::add_field_method_set`. -/
def immutableProxyAddFieldMethodSet (r : UserDataRegistry W) (name : String)
    (_m : U → LuaValue → Except Error Unit) : UserDataRegistry W :=
  r.addFieldSetter name (immutableSetterReject W)

/-- `UserDataMethodsProxy<.., Immutable>::add_function`: passed through
unchanged. -/
def immutableProxyAddFunction (r : UserDataRegistry W) (name : String)
    (f : List LuaValue → Except Error LuaValue) : UserDataRegistry W :=
  r.addFunction name f

/-- `UserDataMethodsProxy<.., Immutable>::add_meta_function`: passed
through unchanged. -/
def immutableProxyAddMetaFunction (r : UserDataRegistry W) (meta : MetaMethod)
    (f : List LuaValue → Except Error LuaValue) : UserDataRegistry W :=
  r.addMetaFunction meta f

/-- A registry with nothing registered. -/
def emptyRegistry : UserDataRegistry Unit :=
  { methods := [], mutMethods := [], functions := [], metaMethods := [],
    metaMutMethods := [], metaFunctions := [], fieldGetters := [],
    fieldSetters := [] }

/-- A wrapper whose guards always succeed, yielding the inner value 4. -/
def alwaysOkGuard : GuardedBorrow Unit Int :=
  { tryBorrow := fun _ => Except.ok 4, tryBorrowMut := fun _ => Except.ok 4 }

/-- A wrapper whose guards are always contended. -/
def alwaysErrGuard : GuardedBorrow Unit Int :=
  { tryBorrow := fun _ => Except.error (), tryBorrowMut := fun _ => Except.error () }

/-- C3.  Under the `Immutable` proxy policy, every mutable forwarding
entry point (`add_method_mut`, `add_meta_method_mut`,
`add_field_method_set`) installs a callback that fails with
`UserDataProxyBorrowMutError` on every call — for every receiver and
every argument, whether or not the wrapper's guard could have been
acquired, and in particular immediately after a successful immutable
forwarding call on the same receiver. -/
theorem immutable_proxy_mut_entry_points (W U : Type) (gb : GuardedBorrow W U)
    (r : UserDataRegistry W) (name fname : String) (meta : MetaMethod)
    (m mm : U → List LuaValue → Except Error LuaValue)
    (sm : U → LuaValue → Except Error Unit)
    (mr : U → List LuaValue → Except Error LuaValue)
    (w : W) (u : U) (args args2 : List LuaValue) (arg : LuaValue) :
    (immutableProxyAddMethodMut r name m).mutMethods =
      r.mutMethods ++ [(name, immutableMutReject W)] ∧
    (immutableProxyAddMetaMethodMut r meta mm).metaMutMethods =
      r.metaMutMethods ++ [(meta, immutableMutReject W)] ∧
    (immutableProxyAddFieldMethodSet r fname sm).fieldSetters =
      r.fieldSetters ++ [(fname, immutableSetterReject W)] ∧
    immutableMutReject W w args = Except.error Error.userDataProxyBorrowMutError ∧
    immutableSetterReject W w arg = Except.error Error.userDataProxyBorrowMutError ∧
    (gb.tryBorrow w = Except.ok u →
      proxyBorrowWrap gb mr w args = mr u args ∧
      immutableMutReject W w args2 = Except.error Error.userDataProxyBorrowMutError) := by
  refine ⟨rfl, rfl, rfl, rfl, rfl, ?_⟩
  intro hg
  constructor
  · simp [proxyBorrowWrap, hg]
  · rfl

/-- Closed instance of `immutable_proxy_mut_entry_points`: after a
successful immutable forwarding call the rejecting callback still fails. -/
theorem immutable_proxy_mut_entry_points_witness :
    proxyBorrowWrap alwaysOkGuard (fun u _ => Except.ok (LuaValue.num u)) () [] =
      Except.ok (LuaValue.num 4) ∧
    immutableMutReject Unit () [] =
      Except.error Error.userDataProxyBorrowMutError :=
  (immutable_proxy_mut_entry_points Unit Int alwaysOkGuard emptyRegistry
    "a" "b" MetaMethod.add (fun _ _ => Except.ok LuaValue.nil)
    (fun _ _ => Except.ok LuaValue.nil) (fun _ _ => Except.ok ())
    (fun u _ => Except.ok (LuaValue.num u)) () 4 [] [] LuaValue.nil).2.2.2.2.2 rfl

/-- C6.  Under the `Mutable` proxy policy, a forwarded `add_method`
callback first acquires a non-blocking shared guard on the inner value
and a forwarded `add_method_mut` callback first acquires a non-blocking
exclusive guard; guard-acquisition failure surfaces as
`UserDataProxyBorrowError` (respectively `UserDataProxyBorrowMutError`),
each distinct from the inner cell's own borrow errors; and
`add_function` / `add_meta_function` registrations pass through unchanged
in both policies, with no wrapper-level guard involved. -/
theorem mutable_proxy_forwarding (W U : Type) (gb : GuardedBorrow W U)
    (r : UserDataRegistry W) (name : String) (meta : MetaMethod)
    (m mm : U → List LuaValue → Except Error LuaValue)
    (f : List LuaValue → Except Error LuaValue)
    (w : W) (u : U) (args : List LuaValue) :
    (mutableProxyAddMethod gb r name m).methods =
      r.methods ++ [(name, proxyBorrowWrap gb m)] ∧
    (mutableProxyAddMethodMut gb r name mm).mutMethods =
      r.mutMethods ++ [(name, proxyBorrowMutWrap gb mm)] ∧
    (gb.tryBorrow w = Except.error () →
      proxyBorrowWrap gb m w args = Except.error Error.userDataProxyBorrowError) ∧
    (gb.tryBorrow w = Except.ok u →
      proxyBorrowWrap gb m w args = m u args) ∧
    (gb.tryBorrowMut w = Except.error () →
      proxyBorrowMutWrap gb mm w args =
        Except.error Error.userDataProxyBorrowMutError) ∧
    (gb.tryBorrowMut w = Except.ok u →
      proxyBorrowMutWrap gb mm w args = mm u args) ∧
    Error.userDataProxyBorrowError ≠ Error.userDataBorrowError ∧
    Error.userDataProxyBorrowMutError ≠ Error.userDataBorrowMutError ∧
    mutableProxyAddFunction r name f = r.addFunction name f ∧
    immutableProxyAddFunction r name f = r.addFunction name f ∧
    mutableProxyAddMetaFunction r meta f = r.addMetaFunction meta f ∧
    immutableProxyAddMetaFunction r meta f = r.addMetaFunction meta f := by
  refine ⟨rfl, rfl, ?_, ?_, ?_, ?_, by decide, by decide, rfl, rfl, rfl, rfl⟩
  · intro hg
    simp [proxyBorrowWrap, hg]
  · intro hg
    simp [proxyBorrowWrap, hg]
  · intro hg
    simp [proxyBorrowMutWrap, hg]
  · intro hg
    simp [proxyBorrowMutWrap, hg]

/-- Closed instance of `mutable_proxy_forwarding`: guard contention on the
exclusive path surfaces as the proxy borrow-mut error. -/
theorem mutable_proxy_forwarding_witness :
    proxyBorrowMutWrap alwaysErrGuard (fun u _ => Except.ok (LuaValue.num u)) () [] =
      Except.error Error.userDataProxyBorrowMutError :=
  (mutable_proxy_forwarding Unit Int alwaysErrGuard emptyRegistry "a"
    MetaMethod.add (fun _ _ => Except.ok LuaValue.nil)
    (fun u _ => Except.ok (LuaValue.num u)) (fun _ => Except.ok LuaValue.nil)
    () 0 []).2.2.2.2.1 rfl

end HvLua
